/-
Verification of the wmts_to_geotiff.py pipeline (a WMTS-layer-to-GeoTIFF
conversion script) against its natural-language specification.

The script is shallowly embedded: external libraries (owslib, mapproxy,
rasterio) are modelled as an oracle `World` of function fields whose results
the script consumes; the script's own control flow (the early layer-name
check, string templating of the MapProxy config, the coverage restriction,
the try/except region around seeding and mosaicking, and the mosaic write
loop) is translated statement by statement into the `stageAtoC`, `tryBlock`
and `main` definitions below.  Python floats are modelled as rationals,
Python exceptions as the `PyExc` type (with `SystemExit` distinguished from
`Exception`, since `except Exception` does not intercept `sys.exit`).
-/
import Mathlib

/-- A WGS84 / projected bounding box (minx, miny, maxx, maxy); models the
Python 4-tuples of floats used for bboxes. -/
structure Rect where
  minx : ℚ
  miny : ℚ
  maxx : ℚ
  maxy : ℚ
deriving DecidableEq, Repr

def qmax (a b : ℚ) : ℚ := if a ≤ b then b else a

def qmin (a b : ℚ) : ℚ := if a ≤ b then a else b

/-- Rectangle intersection (used only by concrete oracle instantiations and
by the spec-modelled coverage function). -/
def rectIntersect (r s : Rect) : Rect :=
  { minx := qmax r.minx s.minx
    miny := qmax r.miny s.miny
    maxx := qmin r.maxx s.maxx
    maxy := qmin r.maxy s.maxy }

/-- A mapproxy coverage value (opaque to the script; carried as a rectangle
so that concrete oracle instantiations can give it intersection semantics). -/
structure Coverage where
  rect : Rect
deriving DecidableEq, Repr

/-- The loaded grid object returned by `TileGrid(...)` (opaque to the script
except that coverage oracles may consult its extent). -/
structure Grid where
  extent : Rect
deriving DecidableEq, Repr

/-- Whatever `seed_conf.caches[layer_name]['grid']` holds; passed on to
`TileGrid` untouched by the script. -/
abbrev GridRef : Type := String

/-- The `coverage_information` dict built at lines 107-113 of the source
(from the `task` tuple of line 105). -/
structure CoverageInfo where
  cache_name : String
  srs : String
  min_level : ℤ
  max_level : ℤ
  dry_run : Bool
deriving DecidableEq, Repr

/-- One entry of the `seed_only` list of the seed directive (line 116). -/
structure SeedOnly where
  cache_name : String
deriving DecidableEq, Repr

/-- The `seed_config` dict of line 116 of the source. -/
structure SeedDirective where
  seed_only : List SeedOnly
  concurrency : ℕ
deriving DecidableEq, Repr

/-- The raster profile (`src.meta`) copied from the first tile (line 133). -/
structure Profile where
  width : ℕ
  height : ℕ
  count : ℕ
  dtype : String
deriving DecidableEq, Repr

/-- An opened rasterio dataset: its path, metadata and CRS. -/
structure TileRaster where
  name : String
  meta : Profile
  crs : String
deriving DecidableEq, Repr

/-- A rasterio window (col_off, row_off, width, height). -/
structure Window where
  col_off : ℕ
  row_off : ℕ
  width : ℕ
  height : ℕ
deriving DecidableEq, Repr

/-- Whether a pixel (row, col) lies inside a window. -/
def Window.covers (wnd : Window) (p : ℕ × ℕ) : Bool :=
  (wnd.row_off ≤ p.1 && p.1 < wnd.row_off + wnd.height) &&
  (wnd.col_off ≤ p.2 && p.2 < wnd.col_off + wnd.width)

/-- A `WarpedVRT` view of a tile: its natural block windows (in output
coordinates, as written at line 142) and the reprojected pixel content the
view would yield at each output pixel. -/
structure VrtView where
  blockWindows : List Window
  pix : ℕ × ℕ → ℕ

/-- One `(root, dirs, files)` triple yielded by `os.walk`. -/
structure WalkEntry where
  root : String
  dirs : List String
  files : List String
deriving DecidableEq, Repr

/-- The owslib layer object `wmts[layer_name]`. -/
structure WmtsLayerObj where
  title : String
  tilematrixsets : List String
  formats : List String
deriving DecidableEq, Repr

/-- The owslib tile-matrix-set object `wmts.tilematrixsets[id]`. -/
structure TileMatrixSetObj where
  title : String
  resolutions : List ℚ
  bboxWGS84 : Rect
deriving DecidableEq, Repr

/-- The owslib `WebMapTileService` object: its `contents` dict (layer name
to layer object) and its `tilematrixsets` dict. -/
structure WmtsService where
  contents : List (String × WmtsLayerObj)
  tilematrixsets : List (String × TileMatrixSetObj)
deriving DecidableEq, Repr

/-- The value of `seed_conf.caches[layer_name]`: a dict holding a `'grid'`
entry. -/
structure CacheEntry where
  grid : GridRef
deriving DecidableEq

/-- The `seed_conf` object of the loaded `ProxyConfiguration`: a caches dict
and a mutable coverage slot (overwritten at line 115 of the source). -/
structure SeedConf where
  caches : String → Option CacheEntry
  coverage : Option Coverage

/-- The loaded `ProxyConfiguration` (line 98), reduced to the single
attribute the script reads. -/
structure Configuration where
  seed_conf : SeedConf

/-- The structured content of the string-templated MapProxy configuration
document (template at lines 40-77, substitution at lines 80-90): one field
per `{placeholder}` of the template. -/
structure MapproxyConfigData where
  layer_name : String
  title : String
  tile_matrix_set_id : String
  wmts_url : String
  format_extension : String
  grid_bbox : Rect
  user_bbox : Rect
  user_bbox_str : String
  resolutions : List ℚ
  srs : String
deriving DecidableEq, Repr

/-- The key of the single entry of the `grids:` section (template line 69). -/
def MapproxyConfigData.gridsKey (c : MapproxyConfigData) : String :=
  c.tile_matrix_set_id

/-- The name of the single cache (template line 52): `<layer>_cache`. -/
def MapproxyConfigData.cacheName (c : MapproxyConfigData) : String :=
  c.layer_name ++ "_cache"

/-- The `grids:` list of the cache entry (template line 53). -/
def MapproxyConfigData.cacheGrids (c : MapproxyConfigData) : List String :=
  [c.tile_matrix_set_id]

/-- The `grid:` field of the tile source (template line 59). -/
def MapproxyConfigData.sourceGrid (c : MapproxyConfigData) : String :=
  c.tile_matrix_set_id

/-- The `wmts_tile_matrix_set:` field of the tile source (template line 63). -/
def MapproxyConfigData.sourceTileMatrixSet (c : MapproxyConfigData) : String :=
  c.tile_matrix_set_id

/-- A logging call made by the script. -/
inductive LogEvent where
  | error (msg : String)
  | info (msg : String)
deriving DecidableEq, Repr

/-- A Python exception in flight.  `sysExit` models `SystemExit` raised by
`sys.exit`, which `except Exception` does NOT catch; `indexError` models the
`IndexError` of an out-of-range list subscript; `exc` models any other
exception (with its `str(e)` message). -/
inductive PyExc where
  | exc (m : String)
  | indexError
  | sysExit (code : ℕ)
deriving DecidableEq, Repr

/-- The `str(e)` rendering of an exception. -/
def PyExc.msg : PyExc → String
  | .exc m => m
  | .indexError => "list index out of range"
  | .sysExit c => "SystemExit: " ++ toString c

/-- Whether `except Exception` catches this exception. -/
def PyExc.catchable : PyExc → Bool
  | .sysExit _ => false
  | _ => true

/-- How the process terminated: a clean `sys.exit`-style exit with a code
(code 0 when `main` returns normally), or an exception that propagated out
of `main` uncaught (the interpreter then prints a traceback). -/
inductive MainResult where
  | exited (code : ℕ)
  | uncaught (msg : String)
deriving DecidableEq, Repr

/-- The external world: one field per library/OS call the script makes, in
source order.  Fallible calls return `Except String` (the error being the
raised exception's message). -/
structure World where
  fetchService : String → Except String WmtsService
  writeConfigFile : String → MapproxyConfigData → Except String Unit
  loadDefaultConfig : Except String Unit
  parseConfig : MapproxyConfigData → Except String Configuration
  tileGrid : GridRef → Except String Grid
  extentToGridCoverage : Rect → Grid → ℤ → Except String Coverage
  mergeCoverage : Option Coverage → List Coverage → String → CoverageInfo →
    Except String Coverage
  makedirs : String → Except String Unit
  seedRun : SeedDirective → SeedConf → Except String Unit
  isdir : String → Bool
  walk : String → List WalkEntry
  openRaster : String → Except String TileRaster
  openOutput : String → Profile → Except String Unit
  warpedVRT : TileRaster → String → Except String VrtView

/-- The CLI arguments (click options of lines 21-27; `zoom_level` is a
Python `int`, `bbox` four floats). -/
structure Args where
  wmts_url : String
  layer_name : String
  zoom_level : ℤ
  bbox : Rect
  mapproxy_config : String
  output : String
  srs : String

/-- Python's `l[:j]` slice for a possibly negative upper bound `j`
(`zoom_level + 1` is an `int` that the CLI does not constrain). -/
def pyTakeTo {α : Type} (l : List α) (j : ℤ) : List α :=
  if 0 ≤ j then l.take j.toNat else l.take (l.length - (-j).toNat)

/-- Python's `s.endswith(suffix)`. -/
def pyEndsWith (s suffix : String) : Bool :=
  suffix.data.isSuffixOf s.data

/-- `stripPre pat l` removes `pat` from the front of `l`, if it is a prefix
of `l`. -/
def stripPre : List Char → List Char → Option (List Char)
  | [], rest => some rest
  | _ :: _, [] => none
  | p :: ps, c :: cs => if p = c then stripPre ps cs else none

/-- Greedy left-to-right non-overlapping replacement of `pat` by `rep`,
fuelled by the input length (one fuel unit is spent per inspected prefix,
which is enough fuel because the script's pattern `":"` is non-empty). -/
def replaceAux (pat rep : List Char) : ℕ → List Char → List Char
  | _, [] => []
  | 0, l => l
  | fuel + 1, c :: cs =>
    match stripPre pat (c :: cs) with
    | some rest => rep ++ replaceAux pat rep fuel rest
    | none => c :: replaceAux pat rep fuel cs

/-- Python's `s.replace(pat, rep)` for a non-empty pattern. -/
def pyReplace (s pat rep : String) : String :=
  ⟨replaceAux pat.data rep.data s.data.length s.data⟩

/-- Python's `s.split('/')[-1]`: the suffix after the last slash (the whole
string when no slash occurs). -/
def lastAfterSlash (s : String) : String :=
  ⟨s.data.foldl (fun acc c => if c = '/' then [] else acc ++ [c]) []⟩

/-- `' '.join(str(b) for b in bbox)` (line 38). -/
def bboxStr (r : Rect) : String :=
  toString r.minx ++ " " ++ toString r.miny ++ " " ++ toString r.maxx
    ++ " " ++ toString r.maxy

/-- The error message of line 31. -/
def notFoundMsg (layerName : String) : String :=
  "Layer \"" ++ layerName ++ "\" not found in provided WMTS service"

/-- The error message of line 123. -/
def noDataMsg (layerName : String) (zoomLevel : ℤ) : String :=
  "No data found for layer " ++ layerName ++ " at zoom level "
    ++ toString zoomLevel

/-- The catch-all handler message of line 147. -/
def processErrMsg (m : String) : String :=
  "Error during process: " ++ m

/-- The success message of line 144. -/
def successMsg (output : String) : String :=
  "GeoTIFF generated successfully. Output: " ++ output

/-- The cache directory probed at lines 121-122:
`cache_data/<layer>_cache_<srs with colon removed>/<zoom>`. -/
def sourcePathOf (a : Args) : String :=
  "cache_data/" ++ a.layer_name ++ "_cache_" ++ pyReplace a.srs ":" ""
    ++ "/" ++ toString a.zoom_level

/-- The `coverage_information` dict of lines 105-113: the `task` tuple is
`(layer_name, srs, zoom_level, False)` and both levels are `task[2]`. -/
def coverageInformation (a : Args) : CoverageInfo :=
  { cache_name := a.layer_name
    srs := a.srs
    min_level := a.zoom_level
    max_level := a.zoom_level
    dry_run := false }

/-- The `seed_config` dict of line 116:
`{'seed_only': [{'cache_name': layer_name}], 'concurrency': 1}`. -/
def seedConfigOf (a : Args) : SeedDirective :=
  { seed_only := [{ cache_name := a.layer_name }], concurrency := 1 }

/-- The template substitution of lines 78-90: each field is the value
substituted for the corresponding `{placeholder}` of the template string.
Note line 83: `tile_matrix_set_id` receives the tile-matrix-set OBJECT's
`title`, not the identifier extracted at line 35. -/
def renderMapproxyConfig (a : Args) (layer : WmtsLayerObj)
    (tmsObj : TileMatrixSetObj) (fmt0 : String) : MapproxyConfigData :=
  { layer_name := a.layer_name
    title := layer.title
    tile_matrix_set_id := tmsObj.title
    wmts_url := a.wmts_url
    format_extension := lastAfterSlash fmt0
    grid_bbox := tmsObj.bboxWGS84
    user_bbox := a.bbox
    user_bbox_str := bboxStr a.bbox
    resolutions := pyTakeTo tmsObj.resolutions (a.zoom_level + 1)
    srs := a.srs }

/-- The tile-collection loop of lines 126-130: for every walk entry, every
file whose name ends with `.<ext>` is appended as `root/file`. -/
def collectFiles (entries : List WalkEntry) (ext : String) : List String :=
  entries.flatMap (fun e =>
    (e.files.filter (fun f => pyEndsWith f ("." ++ ext))).map
      (fun f => e.root ++ "/" ++ f))

/-- Everything stages A-C (lines 29-116, before the `try`) hand to the
`try` region: the rendered config, the fetched objects, the (mutated)
`seed_conf`, the seed directive, and a record of the coverage-restriction
call for the theorems. -/
structure MidState where
  cfg : MapproxyConfigData
  layer : WmtsLayerObj
  tms : TileMatrixSetObj
  seedConf : SeedConf
  seedDirective : SeedDirective
  covCallBBox : Rect
  mergeMode : String
  mergeInfo : CoverageInfo
  installedCoverage : Coverage

/-- Outcome of lines 29-116: the layer-not-found early exit of lines 30-32,
an uncaught exception (nothing up to line 116 is inside the `try`; the
`written` payload records whether the config file write of lines 92-93 had
already happened), or fall-through into the `try`. -/
inductive StageResult where
  | layerNotFound : StageResult
  | uncaught (e : PyExc) (written : Option MapproxyConfigData) : StageResult
  | proceed (st : MidState) : StageResult

/-- Outcome of the `try` region, lines 118-144: logs emitted, whether
`seed` was invoked, every `rasterio.open` of an input file (in order,
including the double open of the first file at lines 132 and 137), the
profile the output raster was created with, the output pixel content, and
the exception (if any) that escaped the region. -/
structure TryOutcome where
  logs : List LogEvent
  seedCalled : Bool
  rastersOpened : List String
  outputProfile : Option Profile
  outputPixels : ℕ × ℕ → Option ℕ
  exc : Option PyExc

/-- Full observable outcome of one run of `main`. -/
structure RunOutcome where
  result : MainResult
  logs : List LogEvent
  configWritten : Option MapproxyConfigData
  covCallBBox : Option Rect
  mergeMode : Option String
  mergeInfo : Option CoverageInfo
  installedCoverage : Option Coverage
  seedDirective : Option SeedDirective
  rastersOpened : List String
  outputProfile : Option Profile
  outputPixels : ℕ × ℕ → Option ℕ

/-- The output raster before anything is written: no pixel holds data. -/
def emptyPix : ℕ × ℕ → Option ℕ := fun _ => none

/-- `mosaic.write(src_array, window=window)` (line 142): every pixel of the
window receives the tile's value, every other pixel keeps its old value. -/
def writeWindow (out : ℕ × ℕ → Option ℕ) (wnd : Window) (d : ℕ × ℕ → ℕ) :
    ℕ × ℕ → Option ℕ :=
  fun p => if wnd.covers p then some (d p) else out p

/-- The inner loop of lines 139-142: write every block window of one
warped tile view, in `block_windows` order. -/
def writeTilePix (out : ℕ × ℕ → Option ℕ) (v : VrtView) : ℕ × ℕ → Option ℕ :=
  v.blockWindows.foldl (fun o wnd => writeWindow o wnd v.pix) out

/-- The outer loop of lines 136-142 restricted to its pixel effect: tiles
are written one after the other in traversal order. -/
def applyTiles (out : ℕ × ℕ → Option ℕ) (ts : List VrtView) :
    ℕ × ℕ → Option ℕ :=
  ts.foldl writeTilePix out

/-- The mosaic loop of lines 136-142 over the collected file list: each
file is opened (line 137), wrapped in a `WarpedVRT` targeting the output
SRS (line 138), and its block windows are written (lines 139-142).  Returns
the files actually opened, the final pixel content, and the exception that
aborted the loop, if any. -/
def mosaicLoop (w : World) (srs : String) :
    List String → (ℕ × ℕ → Option ℕ) →
      List String × (ℕ × ℕ → Option ℕ) × Option PyExc
  | [], px => ([], px, none)
  | f :: fs, px =>
    match w.openRaster f with
    | .error m => ([f], px, some (.exc m))
    | .ok src =>
      match w.warpedVRT src srs with
      | .error m => ([f], px, some (.exc m))
      | .ok vrt =>
        let r := mosaicLoop w srs fs (writeTilePix px vrt)
        (f :: r.1, r.2.1, r.2.2)

/-- Lines 29-116 of the source: fetch the capabilities, check the layer,
extract the first tile-matrix-set id and its object, render and write the
config, reload it, and restrict the coverage.  None of this is inside the
`try`, so every raised exception becomes `StageResult.uncaught`. -/
def stageAtoC (w : World) (a : Args) : StageResult :=
  match w.fetchService a.wmts_url with
  | .error m => .uncaught (.exc m) none
  | .ok wmts =>
    match wmts.contents.lookup a.layer_name with
    | none => .layerNotFound
    | some wmts_layer =>
      match wmts_layer.tilematrixsets with
      | [] => .uncaught .indexError none
      | tmsId :: _ =>
        match wmts.tilematrixsets.lookup tmsId with
        | none => .uncaught (.exc ("KeyError: " ++ tmsId)) none
        | some tmsObj =>
          match wmts_layer.formats with
          | [] => .uncaught .indexError none
          | fmt0 :: _ =>
            let cfg := renderMapproxyConfig a wmts_layer tmsObj fmt0
            match w.writeConfigFile a.mapproxy_config cfg with
            | .error m => .uncaught (.exc m) none
            | .ok _ =>
              match w.loadDefaultConfig with
              | .error m => .uncaught (.exc m) (some cfg)
              | .ok _ =>
                match w.parseConfig cfg with
                | .error m => .uncaught (.exc m) (some cfg)
                | .ok configuration =>
                  match configuration.seed_conf.caches a.layer_name with
                  | none =>
                    .uncaught (.exc ("KeyError: " ++ a.layer_name)) (some cfg)
                  | some cacheEntry =>
                    match w.tileGrid cacheEntry.grid with
                    | .error m => .uncaught (.exc m) (some cfg)
                    | .ok grid =>
                      match w.extentToGridCoverage tmsObj.bboxWGS84 grid
                          a.zoom_level with
                      | .error m => .uncaught (.exc m) (some cfg)
                      | .ok coverage =>
                        match w.mergeCoverage
                            configuration.seed_conf.coverage [coverage]
                            "intersect" (coverageInformation a) with
                        | .error m => .uncaught (.exc m) (some cfg)
                        | .ok merged =>
                          .proceed
                            { cfg := cfg
                              layer := wmts_layer
                              tms := tmsObj
                              seedConf :=
                                { caches := configuration.seed_conf.caches
                                  coverage := some merged }
                              seedDirective := seedConfigOf a
                              covCallBBox := tmsObj.bboxWGS84
                              mergeMode := "intersect"
                              mergeInfo := coverageInformation a
                              installedCoverage := merged }

/-- The `try` region, lines 118-144: create `cache_data`, seed, check the
cache directory (the `sys.exit(1)` of line 124 raises `SystemExit`, which
the `except Exception` of line 146 does not catch), collect the tile files,
open the first for its profile, create the output raster, and run the
mosaic loop. -/
def tryBlock (w : World) (a : Args) (st : MidState) : TryOutcome :=
  match w.makedirs "cache_data" with
  | .error m => ⟨[], false, [], none, emptyPix, some (.exc m)⟩
  | .ok _ =>
    match w.seedRun st.seedDirective st.seedConf with
    | .error m => ⟨[], true, [], none, emptyPix, some (.exc m)⟩
    | .ok _ =>
      if w.isdir (sourcePathOf a) then
        match st.layer.formats with
        | [] => ⟨[], true, [], none, emptyPix, some .indexError⟩
        | fmt0 :: _ =>
          let ext := lastAfterSlash fmt0
          match collectFiles (w.walk (sourcePathOf a)) ext with
          | [] => ⟨[], true, [], none, emptyPix, some .indexError⟩
          | f0 :: rest =>
            match w.openRaster f0 with
            | .error m => ⟨[], true, [f0], none, emptyPix, some (.exc m)⟩
            | .ok src =>
              match w.openOutput a.output src.meta with
              | .error m => ⟨[], true, [f0], none, emptyPix, some (.exc m)⟩
              | .ok _ =>
                let r := mosaicLoop w a.srs (f0 :: rest) emptyPix
                match r.2.2 with
                | some e =>
                  ⟨[], true, f0 :: r.1, some src.meta, r.2.1, some e⟩
                | none =>
                  ⟨[.info (successMsg a.output)], true, f0 :: r.1,
                    some src.meta, r.2.1, none⟩
      else
        ⟨[.error (noDataMsg a.layer_name a.zoom_level)], true, [], none,
          emptyPix, some (.sysExit 1)⟩

/-- Assemble the run outcome for a run that reached the `try` region. -/
def proceedOutcome (st : MidState) (t : TryOutcome) (res : MainResult)
    (logs : List LogEvent) : RunOutcome :=
  { result := res
    logs := logs
    configWritten := some st.cfg
    covCallBBox := some st.covCallBBox
    mergeMode := some st.mergeMode
    mergeInfo := some st.mergeInfo
    installedCoverage := some st.installedCoverage
    seedDirective := if t.seedCalled then some st.seedDirective else none
    rastersOpened := t.rastersOpened
    outputProfile := t.outputProfile
    outputPixels := t.outputPixels }

/-- A run outcome with no pipeline progress beyond what is given. -/
def emptyOutcome (res : MainResult) (logs : List LogEvent)
    (written : Option MapproxyConfigData) : RunOutcome :=
  { result := res
    logs := logs
    configWritten := written
    covCallBBox := none
    mergeMode := none
    mergeInfo := none
    installedCoverage := none
    seedDirective := none
    rastersOpened := []
    outputProfile := none
    outputPixels := emptyPix }

/-- The whole `main` command of the source (named `mainRun` because Lean
reserves `main` for IO entry points): stages A-C, then the `try` region
with the `except Exception` handler of lines 146-148.  `SystemExit` passes
through the handler; a catchable exception is logged as
`Error during process: <msg>` and the process exits 1; normal fall-through
exits 0. -/
def mainRun (w : World) (a : Args) : RunOutcome :=
  match stageAtoC w a with
  | .layerNotFound =>
    emptyOutcome (.exited 1) [.error (notFoundMsg a.layer_name)] none
  | .uncaught e written => emptyOutcome (.uncaught e.msg) [] written
  | .proceed st =>
    let t := tryBlock w a st
    match t.exc with
    | none => proceedOutcome st t (.exited 0) t.logs
    | some (.sysExit c) => proceedOutcome st t (.exited c) t.logs
    | some e =>
      proceedOutcome st t (.exited 1)
        (t.logs ++ [.error (processErrMsg e.msg)])

/-- Modelled from the spec: the Coverage Restrictor "computes a geometric
coverage (the intersection of the full grid extent with the user's bounding
box, at the target zoom level)".  This is the coverage the claim C7 says is
installed; the code itself delegates to `extent_to_grid_coverage`, to which
it passes the tile-matrix-set's WGS84 bbox rather than the user's. -/
def specRestrictorCoverage (gridExtent userBBox : Rect) : Rect :=
  rectIntersect gridExtent userBBox

/-- A concrete tile profile for witness runs. -/
def profOK : Profile := { width := 256, height := 256, count := 3, dtype := "uint8" }

/-- A concrete WMTS layer: one tile-matrix-set id, one PNG format. -/
def layerOK : WmtsLayerObj :=
  { title := "Roads", tilematrixsets := ["TMSid"], formats := ["image/png"] }

/-- A concrete tile-matrix-set object whose title coincides with its id. -/
def tmsOK : TileMatrixSetObj :=
  { title := "TMSid", resolutions := [16, 8, 4, 2],
    bboxWGS84 := ⟨0, 0, 10, 10⟩ }

/-- A concrete WMTS service advertising the `roads` layer. -/
def svcOK : WmtsService :=
  { contents := [("roads", layerOK)], tilematrixsets := [("TMSid", tmsOK)] }

/-- The caches dict of the loaded configuration in witness runs: the lookup
keyed by the raw layer name succeeds (the script relies on this). -/
def cachesOK : String → Option CacheEntry :=
  fun n => if n = "roads" then some ⟨"TMSid"⟩ else none

/-- The loaded configuration in witness runs: no prior coverage. -/
def confOK : Configuration := ⟨⟨cachesOK, none⟩⟩

/-- The coverage the witness world computes: the extent handed to
`extent_to_grid_coverage` taken as-is. -/
def covOK : Coverage := ⟨tmsOK.bboxWGS84⟩

/-- A fully successful world: every library call succeeds, the cache
directory exists and holds two PNG tiles. -/
def wOK : World :=
  { fetchService := fun _ => .ok svcOK
    writeConfigFile := fun _ _ => .ok ()
    loadDefaultConfig := .ok ()
    parseConfig := fun _ => .ok confOK
    tileGrid := fun _ => .ok ⟨⟨0, 0, 10, 10⟩⟩
    extentToGridCoverage := fun b _ _ => .ok ⟨b⟩
    mergeCoverage := fun _ covs _ _ => .ok (covs.headD ⟨⟨0, 0, 0, 0⟩⟩)
    makedirs := fun _ => .ok ()
    seedRun := fun _ _ => .ok ()
    isdir := fun _ => true
    walk := fun p => [⟨p, [], ["t1.png", "t2.png"]⟩]
    openRaster := fun f => .ok ⟨f, profOK, "EPSG:4326"⟩
    openOutput := fun _ _ => .ok ()
    warpedVRT := fun _ _ => .ok ⟨[⟨0, 0, 4, 4⟩], fun _ => 5⟩ }

/-- Concrete CLI arguments for witness runs. -/
def aOK : Args :=
  { wmts_url := "http://example.com/wmts"
    layer_name := "roads"
    zoom_level := 2
    bbox := ⟨0, 0, 10, 10⟩
    mapproxy_config := "mapproxy_config.yaml"
    output := "output.gtiff"
    srs := "EPSG:3857" }

/-- The mid-state `stageAtoC wOK aOK` produces. -/
def stOK : MidState :=
  { cfg := renderMapproxyConfig aOK layerOK tmsOK "image/png"
    layer := layerOK
    tms := tmsOK
    seedConf := ⟨cachesOK, some covOK⟩
    seedDirective := seedConfigOf aOK
    covCallBBox := tmsOK.bboxWGS84
    mergeMode := "intersect"
    mergeInfo := coverageInformation aOK
    installedCoverage := covOK }

/-- The witness world with a failing seeding engine (for the amended C1). -/
def wSeedFail : World := { wOK with seedRun := fun _ _ => .error "boom" }

/-- A service with no layers at all (for C4). -/
def svcEmpty : WmtsService := { contents := [], tilematrixsets := [] }

/-- The witness world whose service does not advertise the layer. -/
def wNoLayer : World := { wOK with fetchService := fun _ => .ok svcEmpty }

/-- The witness world where the capabilities fetch raises (for the C1
counterexample). -/
def wFetchFail : World :=
  { wOK with fetchService := fun _ => .error "connection refused" }

/-- The witness world where the cache directory is absent after seeding
(for C5). -/
def wNoDir : World := { wOK with isdir := fun _ => false }

/-- The witness world where the cache directory exists but holds no file
with the expected extension (for C10). -/
def wNoFiles : World :=
  { wOK with walk := fun p => [⟨p, [], ["readme.txt"]⟩] }

/-- A tile-matrix-set object whose human-readable title differs from its
identifier (WMTS allows this; for the C2 counterexample). -/
def tmsFancy : TileMatrixSetObj := { tmsOK with title := "Fancy TMS Title" }

/-- The service advertising `roads` through `tmsFancy`. -/
def svcFancy : WmtsService :=
  { contents := [("roads", layerOK)], tilematrixsets := [("TMSid", tmsFancy)] }

/-- The C2 counterexample world. -/
def wFancy : World := { wOK with fetchService := fun _ => .ok svcFancy }

/-- The C7 counterexample world: `extent_to_grid_coverage` really
intersects its bbox argument with the grid extent, and merging with an
absent prior coverage keeps the given coverage. -/
def wCov : World :=
  { wOK with
    extentToGridCoverage := fun b g _ => .ok ⟨rectIntersect g.extent b⟩ }

/-- The C7 counterexample arguments: the user's bbox is a strict subset of
the grid extent, so the claimed intersection differs from the full extent. -/
def aCov : Args := { aOK with bbox := ⟨2, 2, 4, 4⟩ }

/-- First mosaic witness tile view: rows 0-3, cols 0-3, value 3. -/
def vrtA : VrtView := { blockWindows := [⟨0, 0, 4, 4⟩], pix := fun _ => 3 }

/-- Second mosaic witness tile view: rows 2-5, cols 2-5, value 7;
overlaps `vrtA` on rows 2-3, cols 2-3. -/
def vrtB : VrtView := { blockWindows := [⟨2, 2, 4, 4⟩], pix := fun _ => 7 }

/-- The source raster the mosaic witness world associates with a path. -/
def srcOf (f : String) : TileRaster := ⟨f, profOK, "EPSG:4326"⟩

/-- The warped view the mosaic witness world associates with a source. -/
def vrtOf (f : String) : VrtView := if f = "a" then vrtA else vrtB

/-- The mosaic witness world: two tiles `a` and `b` with overlapping
windows. -/
def wMos : World :=
  { wOK with
    openRaster := fun f => .ok (srcOf f)
    warpedVRT := fun src _ => .ok (vrtOf src.name) }

/-- The first file the happy-path walk collects. -/
def fileOK1 : String := sourcePathOf aOK ++ "/" ++ "t1.png"

/-- The second file the happy-path walk collects. -/
def fileOK2 : String := sourcePathOf aOK ++ "/" ++ "t2.png"

/-- The raster the happy-path world opens for the first collected file. -/
def srcOK1 : TileRaster := ⟨fileOK1, profOK, "EPSG:4326"⟩

/-- A pixel not covered by any window of a list keeps its value under the
window-write fold. -/
theorem foldlWrite_not_covered (d : ℕ × ℕ → ℕ) (p : ℕ × ℕ) :
    ∀ (ws : List Window) (px : ℕ × ℕ → Option ℕ),
      (∀ wnd ∈ ws, wnd.covers p = false) →
      (ws.foldl (fun o wnd => writeWindow o wnd d) px) p = px p := by
  intro ws
  induction ws with
  | nil => intro px _; rfl
  | cons wh wt ih =>
    intro px h
    have hw : wh.covers p = false := h wh (List.mem_cons_self wh wt)
    have ht : ∀ wnd ∈ wt, wnd.covers p = false :=
      fun wnd hm => h wnd (List.mem_cons_of_mem wh hm)
    simp only [List.foldl_cons]
    rw [ih _ ht]
    simp [writeWindow, hw]

/-- A pixel covered by some window of a list receives the tile value under
the window-write fold. -/
theorem foldlWrite_covered (d : ℕ × ℕ → ℕ) (p : ℕ × ℕ) :
    ∀ (ws : List Window) (px : ℕ × ℕ → Option ℕ),
      (∃ wnd ∈ ws, wnd.covers p = true) →
      (ws.foldl (fun o wnd => writeWindow o wnd d) px) p = some (d p) := by
  intro ws
  induction ws with
  | nil =>
    intro px h
    rcases h with ⟨wnd, hm, _⟩
    cases hm
  | cons wh wt ih =>
    intro px h
    by_cases hc : ∃ wnd ∈ wt, wnd.covers p = true
    · simpa only [List.foldl_cons] using ih _ hc
    · push_neg at hc
      have ht : ∀ wnd ∈ wt, wnd.covers p = false := by
        intro wnd hm
        have := hc wnd hm
        simpa using this
      have hw : wh.covers p = true := by
        rcases h with ⟨wnd, hm, hcov⟩
        rcases List.mem_cons.mp hm with rfl | hm'
        · exact hcov
        · exact absurd hcov (by simp [ht wnd hm'])
      simp only [List.foldl_cons]
      rw [foldlWrite_not_covered d p wt _ ht]
      simp [writeWindow, hw]

/-- `writeTilePix` at a pixel covered by one of the tile's windows. -/
theorem writeTilePix_covered (px : ℕ × ℕ → Option ℕ) (v : VrtView)
    (p : ℕ × ℕ) (h : ∃ wnd ∈ v.blockWindows, wnd.covers p = true) :
    writeTilePix px v p = some (v.pix p) :=
  foldlWrite_covered v.pix p v.blockWindows px h

/-- `writeTilePix` at a pixel covered by none of the tile's windows. -/
theorem writeTilePix_not_covered (px : ℕ × ℕ → Option ℕ) (v : VrtView)
    (p : ℕ × ℕ) (h : ∀ wnd ∈ v.blockWindows, wnd.covers p = false) :
    writeTilePix px v p = px p :=
  foldlWrite_not_covered v.pix p v.blockWindows px h

/-- A pixel covered by no window of any tile of a list keeps its value
under the tile-write fold. -/
theorem applyTiles_not_covered (p : ℕ × ℕ) :
    ∀ (ts : List VrtView) (px : ℕ × ℕ → Option ℕ),
      (∀ t ∈ ts, ∀ wnd ∈ t.blockWindows, wnd.covers p = false) →
      applyTiles px ts p = px p := by
  intro ts
  induction ts with
  | nil => intro px _; rfl
  | cons th tt ih =>
    intro px h
    have hh : ∀ wnd ∈ th.blockWindows, wnd.covers p = false :=
      h th (List.mem_cons_self th tt)
    have ht : ∀ t ∈ tt, ∀ wnd ∈ t.blockWindows, wnd.covers p = false :=
      fun t hm => h t (List.mem_cons_of_mem th hm)
    simp only [applyTiles, List.foldl_cons] at *
    rw [ih _ ht, writeTilePix_not_covered _ _ _ hh]

/-- The core last-write-wins fact for the mosaic write loop: if tile `t`
covers pixel `p` and no later tile covers `p`, the final value at `p` is
`t`'s. -/
theorem applyTiles_last (px : ℕ × ℕ → Option ℕ) (l1 : List VrtView)
    (t : VrtView) (l2 : List VrtView) (p : ℕ × ℕ)
    (hcov : ∃ wnd ∈ t.blockWindows, wnd.covers p = true)
    (hafter : ∀ t' ∈ l2, ∀ wnd ∈ t'.blockWindows, wnd.covers p = false) :
    applyTiles px (l1 ++ t :: l2) p = some (t.pix p) := by
  unfold applyTiles
  rw [List.foldl_append, List.foldl_cons]
  have h2 :
      applyTiles (writeTilePix (l1.foldl writeTilePix px) t) l2 p =
        writeTilePix (l1.foldl writeTilePix px) t p :=
    applyTiles_not_covered p l2 _ hafter
  unfold applyTiles at h2
  rw [h2]
  exact writeTilePix_covered _ _ _ hcov

/-- When every file of the list opens and warps successfully, the mosaic
loop visits every file and its pixel effect is the tile-write fold over the
corresponding warped views. -/
theorem mosaicLoop_ok (w : World) (srs : String)
    (srcMap : String → TileRaster) (vrtMap : String → VrtView) :
    ∀ (files : List String) (px : ℕ × ℕ → Option ℕ),
      (∀ f ∈ files, w.openRaster f = .ok (srcMap f)) →
      (∀ f ∈ files, w.warpedVRT (srcMap f) srs = .ok (vrtMap f)) →
      mosaicLoop w srs files px = (files, applyTiles px (files.map vrtMap), none) := by
  intro files
  induction files with
  | nil => intro px _ _; rfl
  | cons f fs ih =>
    intro px hsrc hvrt
    have h1 : w.openRaster f = .ok (srcMap f) := hsrc f (by simp)
    have h2 : w.warpedVRT (srcMap f) srs = .ok (vrtMap f) := hvrt f (by simp)
    simp only [mosaicLoop, h1, h2]
    rw [ih _ (fun g hg => hsrc g (by simp [hg])) (fun g hg => hvrt g (by simp [hg]))]
    simp [applyTiles]

/-- Under the hypotheses that pin each stage A-C library call, `stageAtoC`
falls through into the `try` region with the state the source builds. -/
theorem stageAtoC_proceed (w : World) (a : Args) (svc : WmtsService)
    (layer : WmtsLayerObj) (tmsId : String) (restT : List String)
    (tms : TileMatrixSetObj) (fmt0 : String) (restF : List String)
    (conf : Configuration) (ce : CacheEntry) (grid : Grid)
    (cov merged : Coverage)
    (h1 : w.fetchService a.wmts_url = .ok svc)
    (h2 : svc.contents.lookup a.layer_name = some layer)
    (h3 : layer.tilematrixsets = tmsId :: restT)
    (h4 : svc.tilematrixsets.lookup tmsId = some tms)
    (h5 : layer.formats = fmt0 :: restF)
    (h6 : w.writeConfigFile a.mapproxy_config
      (renderMapproxyConfig a layer tms fmt0) = .ok ())
    (h7 : w.loadDefaultConfig = .ok ())
    (h8 : w.parseConfig (renderMapproxyConfig a layer tms fmt0) = .ok conf)
    (h9 : conf.seed_conf.caches a.layer_name = some ce)
    (h10 : w.tileGrid ce.grid = .ok grid)
    (h11 : w.extentToGridCoverage tms.bboxWGS84 grid a.zoom_level = .ok cov)
    (h12 : w.mergeCoverage conf.seed_conf.coverage [cov] "intersect"
      (coverageInformation a) = .ok merged) :
    stageAtoC w a = .proceed
      { cfg := renderMapproxyConfig a layer tms fmt0
        layer := layer
        tms := tms
        seedConf := { caches := conf.seed_conf.caches, coverage := some merged }
        seedDirective := seedConfigOf a
        covCallBBox := tms.bboxWGS84
        mergeMode := "intersect"
        mergeInfo := coverageInformation a
        installedCoverage := merged } := by
  simp only [stageAtoC, h1, h2, h3, h4, h5, h6, h7, h8, h9, h10, h11, h12]

/-- Once the run reaches the `try` region, the trace fields recorded during
stages A-C are present in the outcome, independent of what the `try` region
does. -/
theorem mainRun_proceed_fields (w : World) (a : Args) (st : MidState)
    (hst : stageAtoC w a = .proceed st) :
    (mainRun w a).configWritten = some st.cfg ∧
    (mainRun w a).covCallBBox = some st.covCallBBox ∧
    (mainRun w a).mergeMode = some st.mergeMode ∧
    (mainRun w a).mergeInfo = some st.mergeInfo ∧
    (mainRun w a).installedCoverage = some st.installedCoverage ∧
    (mainRun w a).rastersOpened = (tryBlock w a st).rastersOpened ∧
    (mainRun w a).outputProfile = (tryBlock w a st).outputProfile := by
  simp only [mainRun, hst]
  cases htx : (tryBlock w a st).exc with
  | none => simp [proceedOutcome]
  | some e => cases e <;> simp [proceedOutcome]

/-- Once `cache_data` is created successfully, the seeding engine is
invoked, whatever happens afterwards. -/
theorem tryBlock_seedCalled (w : World) (a : Args) (st : MidState)
    (hmk : w.makedirs "cache_data" = .ok ()) :
    (tryBlock w a st).seedCalled = true := by
  simp only [tryBlock, hmk]
  repeat' split
  all_goals rfl

/-- Once the run reaches the `try` region and `cache_data` is created, the
seed directive of line 116 is the one handed to the seeding engine. -/
theorem mainRun_seedDirective (w : World) (a : Args) (st : MidState)
    (hst : stageAtoC w a = .proceed st)
    (hmk : w.makedirs "cache_data" = .ok ()) :
    (mainRun w a).seedDirective = some st.seedDirective := by
  have hsc := tryBlock_seedCalled w a st hmk
  simp only [mainRun, hst]
  cases htx : (tryBlock w a st).exc with
  | none => simp [proceedOutcome, hsc]
  | some e => cases e <;> simp [proceedOutcome, hsc]

/-- The no-data message and the catch-all handler message are never the
same string (their literal prefixes differ). -/
theorem noDataMsg_ne_processErrMsg (ln : String) (z : ℤ) (m : String) :
    noDataMsg ln z ≠ processErrMsg m := by
  unfold noDataMsg processErrMsg
  intro h
  have h2 := congrArg String.data h
  simp [String.data_append] at h2

/-- Claim C1, counterexample: an exception raised during the WMTS
capabilities fetch (line 29, OUTSIDE the `try` of line 118) is not caught
and not logged: the run ends with the exception propagating out of `main`,
with an empty log and no config file written — contradicting the claim that
every pipeline exception is caught at the top level and logged. -/
theorem fetch_exception_not_caught_cex :
    (mainRun wFetchFail aOK).result = .uncaught "connection refused" ∧
    (mainRun wFetchFail aOK).logs = [] ∧
    (mainRun wFetchFail aOK).configWritten = none :=
  ⟨rfl, rfl, rfl⟩

/-- Claim C1 (amended): every CATCHABLE exception raised inside the `try`
region of lines 118-144 (cache-dir creation, seeding, tile collection,
mosaicking) is caught by the `except Exception` handler, logged as
`Error during process: <message>`, and the process exits with status 1;
exceptions raised before the `try` (fetch, templating, config loading,
coverage restriction) propagate uncaught. -/
theorem try_region_exception_caught (w : World) (a : Args) (st : MidState)
    (e : PyExc)
    (hst : stageAtoC w a = .proceed st)
    (he : (tryBlock w a st).exc = some e)
    (hc : e.catchable = true) :
    (mainRun w a).result = .exited 1 ∧
    (mainRun w a).logs =
      (tryBlock w a st).logs ++ [.error (processErrMsg e.msg)] := by
  cases e with
  | sysExit c => simp [PyExc.catchable] at hc
  | exc m =>
    constructor
    · simp [mainRun, hst, he, proceedOutcome]
    · simp [mainRun, hst, he, proceedOutcome, PyExc.msg]
  | indexError =>
    constructor
    · simp [mainRun, hst, he, proceedOutcome]
    · simp [mainRun, hst, he, proceedOutcome, PyExc.msg]

/-- Witness for the amended C1: a world whose seeding engine raises
`boom` — the run exits 1 and logs the handler message. -/
theorem try_region_exception_caught_witness :
    (mainRun wSeedFail aOK).result = .exited 1 ∧
    (mainRun wSeedFail aOK).logs =
      (tryBlock wSeedFail aOK stOK).logs ++ [.error (processErrMsg "boom")] :=
  try_region_exception_caught wSeedFail aOK stOK (.exc "boom") rfl rfl rfl

/-- Claim C2, counterexample: the key of the `grids` section of the
synthesized configuration is the tile-matrix-set OBJECT's title (line 83:
`tile_matrix_set_id=wmts_tile_matrix_set_obj.title`), not the layer's first
declared tile-matrix-set identifier (line 35).  When the object registered
under identifier `TMSid` carries the title `Fancy TMS Title`, the grids key
is `Fancy TMS Title`, which differs from the identifier. -/
theorem grids_key_not_tms_identifier_cex :
    (mainRun wFancy aOK).configWritten.map MapproxyConfigData.gridsKey =
      some "Fancy TMS Title" ∧
    svcFancy.tilematrixsets.lookup "TMSid" = some tmsFancy ∧
    layerOK.tilematrixsets = ["TMSid"] ∧
    ("Fancy TMS Title" : String) ≠ "TMSid" :=
  ⟨rfl, rfl, rfl, by decide⟩

/-- Claim C2 (amended): for every run that reaches config synthesis, the
identifier used as the key of the `grids` section — and referenced by the
`caches` and `sources` sections — is the TITLE of the tile-matrix-set
object that the service registers under the layer's first declared
tile-matrix-set identifier; it equals that identifier only when title and
identifier coincide. -/
theorem grids_key_is_tms_title (w : World) (a : Args) (svc : WmtsService)
    (layer : WmtsLayerObj) (tmsId : String) (restT : List String)
    (tms : TileMatrixSetObj) (fmt0 : String) (restF : List String)
    (conf : Configuration) (ce : CacheEntry) (grid : Grid)
    (cov merged : Coverage)
    (h1 : w.fetchService a.wmts_url = .ok svc)
    (h2 : svc.contents.lookup a.layer_name = some layer)
    (h3 : layer.tilematrixsets = tmsId :: restT)
    (h4 : svc.tilematrixsets.lookup tmsId = some tms)
    (h5 : layer.formats = fmt0 :: restF)
    (h6 : w.writeConfigFile a.mapproxy_config
      (renderMapproxyConfig a layer tms fmt0) = .ok ())
    (h7 : w.loadDefaultConfig = .ok ())
    (h8 : w.parseConfig (renderMapproxyConfig a layer tms fmt0) = .ok conf)
    (h9 : conf.seed_conf.caches a.layer_name = some ce)
    (h10 : w.tileGrid ce.grid = .ok grid)
    (h11 : w.extentToGridCoverage tms.bboxWGS84 grid a.zoom_level = .ok cov)
    (h12 : w.mergeCoverage conf.seed_conf.coverage [cov] "intersect"
      (coverageInformation a) = .ok merged) :
    (mainRun w a).configWritten =
      some (renderMapproxyConfig a layer tms fmt0) ∧
    (renderMapproxyConfig a layer tms fmt0).gridsKey = tms.title ∧
    (renderMapproxyConfig a layer tms fmt0).cacheGrids = [tms.title] ∧
    (renderMapproxyConfig a layer tms fmt0).sourceGrid = tms.title ∧
    (renderMapproxyConfig a layer tms fmt0).sourceTileMatrixSet = tms.title := by
  have hst := stageAtoC_proceed w a svc layer tmsId restT tms fmt0 restF conf
    ce grid cov merged h1 h2 h3 h4 h5 h6 h7 h8 h9 h10 h11 h12
  exact ⟨(mainRun_proceed_fields w a _ hst).1, rfl, rfl, rfl, rfl⟩

/-- Witness for the amended C2: the happy-path world, whose tms title is
the string `TMSid`. -/
theorem grids_key_is_tms_title_witness :
    (mainRun wOK aOK).configWritten =
      some (renderMapproxyConfig aOK layerOK tmsOK "image/png") ∧
    (renderMapproxyConfig aOK layerOK tmsOK "image/png").gridsKey = tmsOK.title ∧
    (renderMapproxyConfig aOK layerOK tmsOK "image/png").cacheGrids = [tmsOK.title] ∧
    (renderMapproxyConfig aOK layerOK tmsOK "image/png").sourceGrid = tmsOK.title ∧
    (renderMapproxyConfig aOK layerOK tmsOK "image/png").sourceTileMatrixSet = tmsOK.title :=
  grids_key_is_tms_title wOK aOK svcOK layerOK "TMSid" [] tmsOK "image/png" []
    confOK ⟨"TMSid"⟩ ⟨⟨0, 0, 10, 10⟩⟩ covOK covOK
    rfl rfl rfl rfl rfl rfl rfl rfl rfl rfl rfl rfl

/-- Claim C3, counterexample: the seed directive of line 116 names the raw
layer name (`cache_name: layer_name`), while the configuration's one cache
is named `<layer>_cache` (template line 52) — so `seed_only` does NOT name
the configuration's cache. -/
theorem seed_directive_names_layer_not_cache_cex :
    (mainRun wOK aOK).seedDirective =
      some { seed_only := [{ cache_name := "roads" }], concurrency := 1 } ∧
    (mainRun wOK aOK).configWritten.map MapproxyConfigData.cacheName =
      some "roads_cache" ∧
    ("roads" : String) ≠ "roads_cache" :=
  ⟨rfl, rfl, by decide⟩

/-- Claim C3 (amended): for every run that reaches the seeding stage, the
seed directive has `seed_only` naming the RAW layer name (not the
configuration's cache, whose derived name is `<layer>_cache`) and
`concurrency` equal to 1. -/
theorem seed_directive_layer_name_concurrency_one (w : World) (a : Args)
    (svc : WmtsService) (layer : WmtsLayerObj) (tmsId : String)
    (restT : List String) (tms : TileMatrixSetObj) (fmt0 : String)
    (restF : List String) (conf : Configuration) (ce : CacheEntry)
    (grid : Grid) (cov merged : Coverage)
    (h1 : w.fetchService a.wmts_url = .ok svc)
    (h2 : svc.contents.lookup a.layer_name = some layer)
    (h3 : layer.tilematrixsets = tmsId :: restT)
    (h4 : svc.tilematrixsets.lookup tmsId = some tms)
    (h5 : layer.formats = fmt0 :: restF)
    (h6 : w.writeConfigFile a.mapproxy_config
      (renderMapproxyConfig a layer tms fmt0) = .ok ())
    (h7 : w.loadDefaultConfig = .ok ())
    (h8 : w.parseConfig (renderMapproxyConfig a layer tms fmt0) = .ok conf)
    (h9 : conf.seed_conf.caches a.layer_name = some ce)
    (h10 : w.tileGrid ce.grid = .ok grid)
    (h11 : w.extentToGridCoverage tms.bboxWGS84 grid a.zoom_level = .ok cov)
    (h12 : w.mergeCoverage conf.seed_conf.coverage [cov] "intersect"
      (coverageInformation a) = .ok merged)
    (hmk : w.makedirs "cache_data" = .ok ()) :
    (mainRun w a).seedDirective =
      some { seed_only := [{ cache_name := a.layer_name }], concurrency := 1 } ∧
    (mainRun w a).configWritten.map MapproxyConfigData.cacheName =
      some (a.layer_name ++ "_cache") := by
  have hst := stageAtoC_proceed w a svc layer tmsId restT tms fmt0 restF conf
    ce grid cov merged h1 h2 h3 h4 h5 h6 h7 h8 h9 h10 h11 h12
  constructor
  · exact mainRun_seedDirective w a _ hst hmk
  · rw [(mainRun_proceed_fields w a _ hst).1]
    rfl

/-- Witness for the amended C3: the happy-path world seeds with
`cache_name: roads` while the cache is `roads_cache`. -/
theorem seed_directive_layer_name_concurrency_one_witness :
    (mainRun wOK aOK).seedDirective =
      some { seed_only := [{ cache_name := "roads" }], concurrency := 1 } ∧
    (mainRun wOK aOK).configWritten.map MapproxyConfigData.cacheName =
      some ("roads" ++ "_cache") :=
  seed_directive_layer_name_concurrency_one wOK aOK svcOK layerOK "TMSid" []
    tmsOK "image/png" [] confOK ⟨"TMSid"⟩ ⟨⟨0, 0, 10, 10⟩⟩ covOK covOK
    rfl rfl rfl rfl rfl rfl rfl rfl rfl rfl rfl rfl rfl

/-- Claim C4: when the service's contents do not include the requested
layer name, the tool logs an error containing the layer name and exits with
status 1 before any file I/O: no config file is written, no raster file is
opened, no output profile exists. -/
theorem layer_not_found_exits_before_io (w : World) (a : Args)
    (svc : WmtsService)
    (h1 : w.fetchService a.wmts_url = .ok svc)
    (h2 : svc.contents.lookup a.layer_name = none) :
    (mainRun w a).result = .exited 1 ∧
    (mainRun w a).logs = [.error (notFoundMsg a.layer_name)] ∧
    (∃ pre post, notFoundMsg a.layer_name = pre ++ a.layer_name ++ post) ∧
    (mainRun w a).configWritten = none ∧
    (mainRun w a).rastersOpened = [] ∧
    (mainRun w a).outputProfile = none := by
  have hst : stageAtoC w a = .layerNotFound := by
    simp only [stageAtoC, h1, h2]
  refine ⟨?_, ?_,
    ⟨"Layer \"", "\" not found in provided WMTS service", rfl⟩, ?_, ?_, ?_⟩ <;>
    simp [mainRun, hst, emptyOutcome]

/-- Witness for C4: a service advertising no layers at all. -/
theorem layer_not_found_exits_before_io_witness :
    (mainRun wNoLayer aOK).result = .exited 1 ∧
    (mainRun wNoLayer aOK).logs = [.error (notFoundMsg "roads")] ∧
    (∃ pre post, notFoundMsg "roads" = pre ++ "roads" ++ post) ∧
    (mainRun wNoLayer aOK).configWritten = none ∧
    (mainRun wNoLayer aOK).rastersOpened = [] ∧
    (mainRun wNoLayer aOK).outputProfile = none :=
  layer_not_found_exits_before_io wNoLayer aOK svcEmpty rfl rfl

/-- Claim C5: when the cache directory
`cache_data/<layer>_cache_<srs-without-colon>/<zoom>` does not exist after
seeding, the tool logs the no-data message (which references the layer name
and zoom level) and exits with status 1 without opening any raster file;
the `sys.exit(1)` raises `SystemExit`, which the catch-all
`except Exception` does not intercept — no handler message is logged. -/
theorem missing_cache_dir_no_data_exit (w : World) (a : Args) (st : MidState)
    (hst : stageAtoC w a = .proceed st)
    (hmk : w.makedirs "cache_data" = .ok ())
    (hsr : w.seedRun st.seedDirective st.seedConf = .ok ())
    (hdir : w.isdir (sourcePathOf a) = false) :
    (mainRun w a).result = .exited 1 ∧
    (mainRun w a).logs = [.error (noDataMsg a.layer_name a.zoom_level)] ∧
    (∃ pre mid, noDataMsg a.layer_name a.zoom_level =
      pre ++ a.layer_name ++ mid ++ toString a.zoom_level) ∧
    (mainRun w a).rastersOpened = [] ∧
    (mainRun w a).outputProfile = none ∧
    (tryBlock w a st).exc = some (.sysExit 1) ∧
    (∀ m, LogEvent.error (processErrMsg m) ∉ (mainRun w a).logs) := by
  have ht : tryBlock w a st =
      ⟨[.error (noDataMsg a.layer_name a.zoom_level)], true, [], none,
        emptyPix, some (.sysExit 1)⟩ := by
    simp [tryBlock, hmk, hsr, hdir]
  have hlogs : (mainRun w a).logs =
      [.error (noDataMsg a.layer_name a.zoom_level)] := by
    simp [mainRun, hst, ht, proceedOutcome]
  refine ⟨?_, hlogs, ⟨"No data found for layer ", " at zoom level ", rfl⟩,
    ?_, ?_, by rw [ht], ?_⟩
  · simp [mainRun, hst, ht, proceedOutcome]
  · simp [mainRun, hst, ht, proceedOutcome]
  · simp [mainRun, hst, ht, proceedOutcome]
  · intro m hm
    rw [hlogs] at hm
    simp only [List.mem_singleton, LogEvent.error.injEq] at hm
    exact noDataMsg_ne_processErrMsg a.layer_name a.zoom_level m hm.symm

/-- Witness for C5: the happy-path world with an absent cache directory. -/
theorem missing_cache_dir_no_data_exit_witness :
    (mainRun wNoDir aOK).result = .exited 1 ∧
    (mainRun wNoDir aOK).logs = [.error (noDataMsg "roads" 2)] ∧
    (∃ pre mid, noDataMsg "roads" 2 =
      pre ++ "roads" ++ mid ++ toString (2 : ℤ)) ∧
    (mainRun wNoDir aOK).rastersOpened = [] ∧
    (mainRun wNoDir aOK).outputProfile = none ∧
    (tryBlock wNoDir aOK stOK).exc = some (.sysExit 1) ∧
    (∀ m, LogEvent.error (processErrMsg m) ∉ (mainRun wNoDir aOK).logs) :=
  missing_cache_dir_no_data_exit wNoDir aOK stOK rfl rfl rfl rfl

/-- Claim C6: for every run that reaches config synthesis with a
non-negative zoom level `z`, the resolution list written into the
synthesized configuration is the prefix of the tile-matrix-set's resolution
list up to and including index `z` (i.e. the first `z + 1` entries). -/
theorem resolutions_truncated_inclusive (w : World) (a : Args)
    (svc : WmtsService) (layer : WmtsLayerObj) (tmsId : String)
    (restT : List String) (tms : TileMatrixSetObj) (fmt0 : String)
    (restF : List String) (conf : Configuration) (ce : CacheEntry)
    (grid : Grid) (cov merged : Coverage)
    (h1 : w.fetchService a.wmts_url = .ok svc)
    (h2 : svc.contents.lookup a.layer_name = some layer)
    (h3 : layer.tilematrixsets = tmsId :: restT)
    (h4 : svc.tilematrixsets.lookup tmsId = some tms)
    (h5 : layer.formats = fmt0 :: restF)
    (h6 : w.writeConfigFile a.mapproxy_config
      (renderMapproxyConfig a layer tms fmt0) = .ok ())
    (h7 : w.loadDefaultConfig = .ok ())
    (h8 : w.parseConfig (renderMapproxyConfig a layer tms fmt0) = .ok conf)
    (h9 : conf.seed_conf.caches a.layer_name = some ce)
    (h10 : w.tileGrid ce.grid = .ok grid)
    (h11 : w.extentToGridCoverage tms.bboxWGS84 grid a.zoom_level = .ok cov)
    (h12 : w.mergeCoverage conf.seed_conf.coverage [cov] "intersect"
      (coverageInformation a) = .ok merged)
    (hz : 0 ≤ a.zoom_level) :
    (mainRun w a).configWritten =
      some (renderMapproxyConfig a layer tms fmt0) ∧
    (renderMapproxyConfig a layer tms fmt0).resolutions =
      tms.resolutions.take (a.zoom_level.toNat + 1) := by
  have hst := stageAtoC_proceed w a svc layer tmsId restT tms fmt0 restF conf
    ce grid cov merged h1 h2 h3 h4 h5 h6 h7 h8 h9 h10 h11 h12
  refine ⟨(mainRun_proceed_fields w a _ hst).1, ?_⟩
  show pyTakeTo tms.resolutions (a.zoom_level + 1) =
    tms.resolutions.take (a.zoom_level.toNat + 1)
  unfold pyTakeTo
  rw [if_pos (by omega)]
  congr 1
  omega

/-- Witness for C6: with resolutions `[16, 8, 4, 2]` and zoom level 2 the
configured resolution list is `[16, 8, 4]` — three entries, inclusive of
index 2, exactly the spec's example. -/
theorem resolutions_truncated_inclusive_witness :
    (0 ≤ aOK.zoom_level) ∧
    ((mainRun wOK aOK).configWritten =
      some (renderMapproxyConfig aOK layerOK tmsOK "image/png") ∧
     (renderMapproxyConfig aOK layerOK tmsOK "image/png").resolutions =
      tmsOK.resolutions.take (aOK.zoom_level.toNat + 1)) ∧
    tmsOK.resolutions = [16, 8, 4, 2] ∧
    tmsOK.resolutions.take (aOK.zoom_level.toNat + 1) = [16, 8, 4] :=
  ⟨by decide,
   resolutions_truncated_inclusive wOK aOK svcOK layerOK "TMSid" [] tmsOK
     "image/png" [] confOK ⟨"TMSid"⟩ ⟨⟨0, 0, 10, 10⟩⟩ covOK covOK
     rfl rfl rfl rfl rfl rfl rfl rfl rfl rfl rfl rfl (by decide),
   by decide, by decide⟩

/-- Claim C7, counterexample: the coverage merged into the configuration is
computed from the tile-matrix-set's WGS84 bbox, not from the user's
bounding box.  With grid extent (0,0,10,10) and user bbox (2,2,4,4), the
code installs the coverage of the full extent (0,0,10,10), while the
claimed "intersection of the full grid extent with the user's bounding box"
is (2,2,4,4). -/
theorem coverage_ignores_user_bbox_cex :
    (mainRun wCov aCov).installedCoverage = some ⟨⟨0, 0, 10, 10⟩⟩ ∧
    specRestrictorCoverage ⟨0, 0, 10, 10⟩ aCov.bbox = ⟨2, 2, 4, 4⟩ ∧
    ((⟨⟨0, 0, 10, 10⟩⟩ : Coverage) ≠ ⟨⟨2, 2, 4, 4⟩⟩) ∧
    (mainRun wCov aCov).covCallBBox = some tmsOK.bboxWGS84 ∧
    aCov.bbox ≠ tmsOK.bboxWGS84 ∧
    (mainRun wCov aCov).mergeInfo.map CoverageInfo.cache_name = some "roads" ∧
    (mainRun wCov aCov).configWritten.map MapproxyConfigData.cacheName =
      some "roads_cache" :=
  ⟨by decide, by decide, by decide, by decide, by decide, by decide, by decide⟩

/-- Claim C7 (amended): for every run that reaches the coverage-restriction
stage, the coverage merged into the loaded configuration is the one the
coverage oracle computes from the TILE-MATRIX-SET's WGS84 bounding box (the
same bbox used as the grid extent — the user's bbox does not enter this
call), merged with the configuration's prior coverage in `intersect` mode
and tagged with `cache_name` = the raw layer name, the target SRS,
min level = max level = the requested zoom, and `dry_run` = false. -/
theorem coverage_from_tms_bbox_merge_intersect (w : World) (a : Args)
    (svc : WmtsService) (layer : WmtsLayerObj) (tmsId : String)
    (restT : List String) (tms : TileMatrixSetObj) (fmt0 : String)
    (restF : List String) (conf : Configuration) (ce : CacheEntry)
    (grid : Grid) (cov merged : Coverage)
    (h1 : w.fetchService a.wmts_url = .ok svc)
    (h2 : svc.contents.lookup a.layer_name = some layer)
    (h3 : layer.tilematrixsets = tmsId :: restT)
    (h4 : svc.tilematrixsets.lookup tmsId = some tms)
    (h5 : layer.formats = fmt0 :: restF)
    (h6 : w.writeConfigFile a.mapproxy_config
      (renderMapproxyConfig a layer tms fmt0) = .ok ())
    (h7 : w.loadDefaultConfig = .ok ())
    (h8 : w.parseConfig (renderMapproxyConfig a layer tms fmt0) = .ok conf)
    (h9 : conf.seed_conf.caches a.layer_name = some ce)
    (h10 : w.tileGrid ce.grid = .ok grid)
    (h11 : w.extentToGridCoverage tms.bboxWGS84 grid a.zoom_level = .ok cov)
    (h12 : w.mergeCoverage conf.seed_conf.coverage [cov] "intersect"
      (coverageInformation a) = .ok merged) :
    (mainRun w a).covCallBBox = some tms.bboxWGS84 ∧
    (mainRun w a).mergeMode = some "intersect" ∧
    (mainRun w a).mergeInfo = some (coverageInformation a) ∧
    (coverageInformation a).cache_name = a.layer_name ∧
    (coverageInformation a).srs = a.srs ∧
    (coverageInformation a).min_level = a.zoom_level ∧
    (coverageInformation a).max_level = a.zoom_level ∧
    (coverageInformation a).dry_run = false ∧
    (mainRun w a).installedCoverage = some merged := by
  have hst := stageAtoC_proceed w a svc layer tmsId restT tms fmt0 restF conf
    ce grid cov merged h1 h2 h3 h4 h5 h6 h7 h8 h9 h10 h11 h12
  have hf := mainRun_proceed_fields w a _ hst
  exact ⟨hf.2.1, hf.2.2.1, hf.2.2.2.1, rfl, rfl, rfl, rfl, rfl,
    hf.2.2.2.2.1⟩

/-- Witness for the amended C7: the happy-path world. -/
theorem coverage_from_tms_bbox_merge_intersect_witness :
    (mainRun wOK aOK).covCallBBox = some tmsOK.bboxWGS84 ∧
    (mainRun wOK aOK).mergeMode = some "intersect" ∧
    (mainRun wOK aOK).mergeInfo = some (coverageInformation aOK) ∧
    (coverageInformation aOK).cache_name = aOK.layer_name ∧
    (coverageInformation aOK).srs = aOK.srs ∧
    (coverageInformation aOK).min_level = aOK.zoom_level ∧
    (coverageInformation aOK).max_level = aOK.zoom_level ∧
    (coverageInformation aOK).dry_run = false ∧
    (mainRun wOK aOK).installedCoverage = some covOK :=
  coverage_from_tms_bbox_merge_intersect wOK aOK svcOK layerOK "TMSid" []
    tmsOK "image/png" [] confOK ⟨"TMSid"⟩ ⟨⟨0, 0, 10, 10⟩⟩ covOK covOK
    rfl rfl rfl rfl rfl rfl rfl rfl rfl rfl rfl rfl

/-- Claim C8: when every file of the mosaic loop opens and warps
successfully, the final pixel value at any pixel covered by a block window
of tile `t` and by no window of any later tile equals `t`'s reprojected
value there — later-written tiles silently overwrite earlier ones at
overlapping windows, with no blending. -/
theorem mosaic_overlap_last_write_wins (w : World) (srs : String)
    (files : List String) (srcMap : String → TileRaster)
    (vrtMap : String → VrtView) (px0 : ℕ × ℕ → Option ℕ)
    (l1 : List VrtView) (t : VrtView) (l2 : List VrtView) (p : ℕ × ℕ)
    (hsrc : ∀ f ∈ files, w.openRaster f = .ok (srcMap f))
    (hvrt : ∀ f ∈ files, w.warpedVRT (srcMap f) srs = .ok (vrtMap f))
    (hsplit : files.map vrtMap = l1 ++ t :: l2)
    (hcov : ∃ wnd ∈ t.blockWindows, wnd.covers p = true)
    (hafter : ∀ t' ∈ l2, ∀ wnd ∈ t'.blockWindows, wnd.covers p = false) :
    (mosaicLoop w srs files px0).2.1 p = some (t.pix p) := by
  rw [mosaicLoop_ok w srs srcMap vrtMap files px0 hsrc hvrt]
  show applyTiles px0 (files.map vrtMap) p = some (t.pix p)
  rw [hsplit]
  exact applyTiles_last px0 l1 t l2 p hcov hafter

/-- Witness for C8: two tiles `a` (value 3, rows/cols 0-3) and `b`
(value 7, rows/cols 2-5) overlap at pixel (3,3); the final value there is
7, from `b`, the tile processed last. -/
theorem mosaic_overlap_last_write_wins_witness :
    (mosaicLoop wMos "EPSG:3857" ["a", "b"] emptyPix).2.1 (3, 3) = some 7 :=
  mosaic_overlap_last_write_wins wMos "EPSG:3857" ["a", "b"] srcOf vrtOf
    emptyPix [vrtA] vrtB [] (3, 3)
    (by intro f hf; fin_cases hf <;> rfl)
    (by intro f hf; fin_cases hf <;> rfl)
    rfl
    ⟨⟨2, 2, 4, 4⟩, by simp [vrtB], by decide⟩
    (by intro t' ht'; exact absurd ht' (List.not_mem_nil t'))

/-- Claim C9: for every run whose tile collection is non-empty and whose
first collected file opens successfully, the output raster is created with
the raster profile copied from that first file, and that profile is the
outcome's output profile whatever the subsequent window writes do (the
writes touch only pixel data, never the profile). -/
theorem mosaic_profile_from_first_tile (w : World) (a : Args) (st : MidState)
    (fmt0 : String) (restF : List String) (f0 : String) (rest : List String)
    (src : TileRaster)
    (hst : stageAtoC w a = .proceed st)
    (hmk : w.makedirs "cache_data" = .ok ())
    (hsr : w.seedRun st.seedDirective st.seedConf = .ok ())
    (hdir : w.isdir (sourcePathOf a) = true)
    (hfmt : st.layer.formats = fmt0 :: restF)
    (hcoll : collectFiles (w.walk (sourcePathOf a)) (lastAfterSlash fmt0) =
      f0 :: rest)
    (hopen : w.openRaster f0 = .ok src)
    (hout : w.openOutput a.output src.meta = .ok ()) :
    (mainRun w a).outputProfile = some src.meta := by
  have hp : (tryBlock w a st).outputProfile = some src.meta := by
    simp only [tryBlock, hmk, hsr, hdir, if_true, hfmt, hcoll, hopen, hout]
    split <;> rfl
  rw [(mainRun_proceed_fields w a _ hst).2.2.2.2.2.2, hp]

/-- Witness for C9: the happy-path world creates the output with the first
tile's profile. -/
theorem mosaic_profile_from_first_tile_witness :
    (mainRun wOK aOK).outputProfile = some profOK :=
  mosaic_profile_from_first_tile wOK aOK stOK "image/png" [] fileOK1
    [fileOK2] srcOK1 rfl rfl rfl rfl rfl rfl rfl rfl

/-- Claim C10: when the cache directory exists but contains no file with
the expected extension, the collected list is empty, indexing its first
element raises `IndexError`, and the tool exits 1 through the generic
catch-all handler logging `Error during process: list index out of range` —
not through the no-data message, which fires only when the directory itself
is absent. -/
theorem empty_tile_list_generic_handler (w : World) (a : Args) (st : MidState)
    (fmt0 : String) (restF : List String)
    (hst : stageAtoC w a = .proceed st)
    (hmk : w.makedirs "cache_data" = .ok ())
    (hsr : w.seedRun st.seedDirective st.seedConf = .ok ())
    (hdir : w.isdir (sourcePathOf a) = true)
    (hfmt : st.layer.formats = fmt0 :: restF)
    (hcoll : collectFiles (w.walk (sourcePathOf a)) (lastAfterSlash fmt0) = []) :
    (mainRun w a).result = .exited 1 ∧
    (mainRun w a).logs = [.error (processErrMsg "list index out of range")] ∧
    (mainRun w a).rastersOpened = [] ∧
    (mainRun w a).outputProfile = none ∧
    (tryBlock w a st).exc = some .indexError ∧
    (∀ ln z, LogEvent.error (noDataMsg ln z) ∉ (mainRun w a).logs) := by
  have ht : tryBlock w a st = ⟨[], true, [], none, emptyPix, some .indexError⟩ := by
    simp [tryBlock, hmk, hsr, hdir, hfmt, hcoll]
  have hlogs : (mainRun w a).logs =
      [.error (processErrMsg "list index out of range")] := by
    simp [mainRun, hst, ht, proceedOutcome, PyExc.msg]
  refine ⟨?_, hlogs, ?_, ?_, by rw [ht], ?_⟩
  · simp [mainRun, hst, ht, proceedOutcome]
  · simp [mainRun, hst, ht, proceedOutcome]
  · simp [mainRun, hst, ht, proceedOutcome]
  · intro ln z hm
    rw [hlogs] at hm
    simp only [List.mem_singleton, LogEvent.error.injEq] at hm
    exact noDataMsg_ne_processErrMsg ln z _ hm

/-- Witness for C10: the cache directory exists but holds only
`readme.txt`; the run exits 1 via the generic handler. -/
theorem empty_tile_list_generic_handler_witness :
    (mainRun wNoFiles aOK).result = .exited 1 ∧
    (mainRun wNoFiles aOK).logs =
      [.error (processErrMsg "list index out of range")] ∧
    (mainRun wNoFiles aOK).rastersOpened = [] ∧
    (mainRun wNoFiles aOK).outputProfile = none ∧
    (tryBlock wNoFiles aOK stOK).exc = some .indexError ∧
    (∀ ln z, LogEvent.error (noDataMsg ln z) ∉ (mainRun wNoFiles aOK).logs) :=
  empty_tile_list_generic_handler wNoFiles aOK stOK "image/png" []
    rfl rfl rfl rfl rfl rfl
